import Mathlib

/-!
# Verification of the `syrinject` dependency-injection container

Shallow embedding of `src/container/Container.ts` together with the provider
and error data model (`src/types/Provider.ts`, `src/types/Token.ts`,
`src/errors/*`).  The embedding follows the source line by line:

* Tokens are registry keys compared by identity; we model them as `Nat`.
* JavaScript runtime values produced by providers are modelled by `Value`.
  Object identity (`new C(...)` allocating a fresh object, `===` comparison)
  is modelled by tagging every constructed object with a fresh allocation
  number drawn from a counter threaded through the container state.
  `Value.undef` models the JavaScript `undefined` value: the singleton cache
  test in `resolveInternal` is literally `entry.value !== undefined`, so
  `undefined` must be expressible in the value domain.
* Providers are structural records with optional fields, mirroring the
  source's shape-sniffing classification (`'useValue' in provider`, ...).
  `useFactory` is a function from the allocation counter to a value and an
  updated counter; in the source the factory receives the container itself,
  but none of the verified properties involve factories that read or mutate
  the registry, so the embedding restricts factories to heap effects
  (allocating fresh objects / returning values).
* The registry `Map<Token, RegistryEntry>` is an association list with
  unique keys; `set` replaces in place, `delete` removes the key.
* `resolveInternal` in the source recurses on the call stack; the embedding
  makes the recursion structural on a fuel argument that bounds the depth of
  nested `resolveInternal` calls.  Along any chain of nested calls the
  `resolving` path gains one distinct registered token per level, so the
  depth of a real run never exceeds the registry size; `resolve` therefore
  seeds fuel `registry.length + 1`, and the artificial `outOfFuel` outcome
  is unreachable from the public entry point.
-/

/-- Registry key (`Token` in `src/types/Token.ts`): class constructor, string
or symbol, compared by identity.  Modelled as `Nat`. -/
abbrev DIToken := Nat

/-- JavaScript runtime values as far as the container observes them:
`undef` is the `undefined` value, `prim n` a primitive (number/string/...),
`obj id cls args` an object allocated by `new C(...)` with fresh identity
`id`, class `cls` and the constructor arguments it was invoked with. -/
inductive Value : Type where
  | undef : Value
  | prim : Nat → Value
  | obj : Nat → Nat → List Value → Value

/-- `true` exactly on `Value.undef` (the JavaScript `x === undefined` test). -/
def Value.isUndef : Value → Bool
  | .undef => true
  | _ => false

/-- A class constructor (`Newable` in the source): its identity `cid` plus
the optional static `deps` / `dependencies` properties that
`getDepsFromClass` reads off the class object. -/
structure ClassRef : Type where
  cid : Nat
  staticDeps : Option (List DIToken)
  staticDependencies : Option (List DIToken)

/-- A factory function (`(container: Container) => T`): receives the current
allocation counter and yields the produced value and updated counter. -/
abbrev FactoryFun := Nat → Value × Nat

/-- A stored provider (`Provider<T>` in `src/types/Provider.ts`).  The source
classifies providers structurally by field presence, so the embedding keeps
every possible field as an `Option`; `none` means the field is absent. -/
structure Provider : Type where
  useValue : Option Value
  useClass : Option ClassRef
  useFactory : Option FactoryFun
  deps : Option (List DIToken)
  singleton : Option Bool

/-- `RegistryEntry<T>`: the provider plus the optional cached value
(`value?: T`). -/
structure RegistryEntry : Type where
  provider : Provider
  value : Option Value

/-- Container state: the registry map plus the allocation counter modelling
object identity. -/
structure Container : Type where
  registry : List (DIToken × RegistryEntry)
  nextId : Nat

/-- The three diagnostic kinds of `src/errors/*`, as structured data
(`DependencyNotFoundError.token`, `CircularDependencyError.path`,
`InvalidProviderError.token`), plus the embedding-only `outOfFuel`
artifact which no run started from `Container.resolve` produces. -/
inductive DIError : Type where
  | circularDependency : List DIToken → DIError
  | dependencyNotFound : DIToken → DIError
  | invalidProvider : DIToken → DIError
  | outOfFuel : DIError

/-- `Map.get`: first entry with the given key. -/
def getEntry : List (DIToken × RegistryEntry) → DIToken → Option RegistryEntry
  | [], _ => none
  | (k, e) :: rest, t => if k = t then some e else getEntry rest t

/-- `Map.set`: replace the entry in place when the key is present, append
otherwise. -/
def setEntry : List (DIToken × RegistryEntry) → DIToken → RegistryEntry → List (DIToken × RegistryEntry)
  | [], t, e => [(t, e)]
  | (k, e') :: rest, t, e => if k = t then (t, e) :: rest else (k, e') :: setEntry rest t e

/-- `Map.delete`: remove the key. -/
def delEntry (r : List (DIToken × RegistryEntry)) (t : DIToken) : List (DIToken × RegistryEntry) :=
  r.filter (fun p => p.1 ≠ t)

/-- `isValueProvider`: `'useValue' in provider`. -/
def isValueProvider (p : Provider) : Bool := p.useValue.isSome

/-- `isClassProvider`: `'useClass' in provider`. -/
def isClassProvider (p : Provider) : Bool := p.useClass.isSome

/-- `isFactoryProvider`: `'useFactory' in provider`. -/
def isFactoryProvider (p : Provider) : Bool := p.useFactory.isSome

/-- `getDepsFromClass`: `classRef.deps ?? classRef.dependencies ?? []`. -/
def getDepsFromClass (useClass : ClassRef) : List DIToken :=
  useClass.staticDeps.getD (useClass.staticDependencies.getD [])

/-- The source test `provider.singleton && ...`: an absent `singleton` field
is falsy. -/
def singletonFlag (p : Provider) : Bool := p.singleton.getD false

/-- The source cache test `entry.value !== undefined`: a cached slot counts
only when it holds a defined value. -/
def cacheDefined : Option Value → Bool
  | some v => !v.isUndef
  | none => false

/-- The argument union `Provider<T> | Newable<T>` of `register`. -/
inductive ProviderOrClass : Type where
  | prov : Provider → ProviderOrClass
  | cls : ClassRef → ProviderOrClass

/-- The `{ singleton?: boolean; deps?: Token[] }` options object. -/
structure RegisterOptions : Type where
  singleton : Option Bool := none
  deps : Option (List DIToken) := none

/-- `normalizeProvider`: a value already in provider shape is stored as-is;
a bare class is wrapped as
`{ useClass, singleton: options.singleton ?? false, deps: options.deps ?? [] }`. -/
def normalizeProvider : ProviderOrClass → RegisterOptions → Provider
  | .prov p, _ => p
  | .cls c, options =>
      { useValue := none
        useClass := some c
        useFactory := none
        deps := some (options.deps.getD [])
        singleton := some (options.singleton.getD false) }

/-- `register`: `this.registry.set(token, { provider })` — a fresh entry with
no cached value. -/
def Container.register (c : Container) (token : DIToken) (providerOrClass : ProviderOrClass)
    (options : RegisterOptions) : Container :=
  let entry : RegistryEntry := { provider := normalizeProvider providerOrClass options, value := none }
  { c with registry := setEntry c.registry token entry }

/-- `registerValue`: `this.register(token, { useValue })`. -/
def Container.registerValue (c : Container) (token : DIToken) (useValue : Value) : Container :=
  c.register token
    (.prov { useValue := some useValue, useClass := none, useFactory := none
             deps := none, singleton := none })
    {}

/-- `registerFactory`:
`this.register(token, { useFactory, singleton: options.singleton ?? false })`. -/
def Container.registerFactory (c : Container) (token : DIToken) (useFactory : FactoryFun)
    (options : RegisterOptions) : Container :=
  c.register token
    (.prov { useValue := none, useClass := none, useFactory := some useFactory
             deps := none, singleton := some (options.singleton.getD false) })
    {}

/-- `unregister`: `this.registry.delete(token)`. -/
def Container.unregister (c : Container) (token : DIToken) : Container :=
  { c with registry := delEntry c.registry token }

/-- `clear`: `this.registry.clear()`. -/
def Container.clear (c : Container) : Container :=
  { c with registry := [] }

/-- `has`: `this.registry.has(token)`. -/
def Container.has (c : Container) (token : DIToken) : Bool :=
  (getEntry c.registry token).isSome

/-- `new Container()`: empty registry, fresh heap. -/
def Container.empty : Container := { registry := [], nextId := 0 }

/-- The sequencing of `deps.map(dep => this.resolveInternal(dep, resolving))`
inside `createInstance`: resolve the dependency tokens left to right,
threading the container state, stopping at the first error.  The recursive
one-token resolver is passed in as `step`. -/
def resolveDeps (step : Container → DIToken → List DIToken → Except DIError Value × Container)
    (c : Container) (ts : List DIToken) (resolving : List DIToken) :
    Except DIError (List Value) × Container :=
  match ts with
  | [] => (.ok [], c)
  | t :: rest =>
      match step c t resolving with
      | (.error e, c') => (.error e, c')
      | (.ok v, c') =>
          match resolveDeps step c' rest resolving with
          | (.error e, c'') => (.error e, c'')
          | (.ok vs, c'') => (.ok (v :: vs), c'')

/-- `createInstance(ClassRef, deps, resolving)`: resolve the dependency
tokens, then `new ClassRef(...resolvedDeps)` — allocate a fresh object whose
constructor arguments are the resolved values in order. -/
def createInstance (step : Container → DIToken → List DIToken → Except DIError Value × Container)
    (c : Container) (classRef : ClassRef) (deps : List DIToken) (resolving : List DIToken) :
    Except DIError Value × Container :=
  match resolveDeps step c deps resolving with
  | (.error e, c') => (.error e, c')
  | (.ok vs, c') =>
      (.ok (Value.obj c'.nextId classRef.cid vs), { c' with nextId := c'.nextId + 1 })

/-- `resolveInternal(token, resolving)`.  `fuel` bounds the depth of nested
`resolveInternal` calls (the source recurses on the call stack); every
recursive call is made with one unit less. -/
def resolveInternal : Nat → Container → DIToken → List DIToken → Except DIError Value × Container
  | 0, c, _, _ => (.error .outOfFuel, c)
  | fuel + 1, c, token, resolving =>
    if token ∈ resolving then
      (.error (.circularDependency (resolving ++ [token])), c)
    else
      match getEntry c.registry token with
      | none => (.error (.dependencyNotFound token), c)
      | some entry =>
          match entry.provider.useValue with
          | some v => (.ok v, c)
          | none =>
              match entry.provider.useClass with
              | some classRef =>
                  if singletonFlag entry.provider && cacheDefined entry.value then
                    (.ok (entry.value.getD Value.undef), c)
                  else
                    let deps := entry.provider.deps.getD (getDepsFromClass classRef)
                    match createInstance (resolveInternal fuel) c classRef deps
                        (resolving ++ [token]) with
                    | (.error e, c') => (.error e, c')
                    | (.ok instance', c') =>
                        if singletonFlag entry.provider then
                          let cached : RegistryEntry :=
                            { provider := entry.provider, value := some instance' }
                          (.ok instance', { c' with registry := setEntry c'.registry token cached })
                        else
                          (.ok instance', c')
              | none =>
                  match entry.provider.useFactory with
                  | some f =>
                      if singletonFlag entry.provider && cacheDefined entry.value then
                        (.ok (entry.value.getD Value.undef), c)
                      else
                        let r := f c.nextId
                        let c' : Container := { c with nextId := r.2 }
                        if singletonFlag entry.provider then
                          let cached : RegistryEntry :=
                            { provider := entry.provider, value := some r.1 }
                          (.ok r.1, { c' with registry := setEntry c'.registry token cached })
                        else
                          (.ok r.1, c')
                  | none => (.error (.invalidProvider token), c)

/-- `resolve(token)`: `this.resolveInternal(token, [])`, with enough fuel for
any real run (the resolution path only ever holds distinct registered
tokens, so call depth is at most the registry size). -/
def Container.resolve (c : Container) (token : DIToken) : Except DIError Value × Container :=
  resolveInternal (c.registry.length + 1) c token []

/-! ## Registry map lemmas -/

theorem getEntry_setEntry_self (r : List (DIToken × RegistryEntry)) (t : DIToken)
    (e : RegistryEntry) : getEntry (setEntry r t e) t = some e := by
  induction r with
  | nil => simp [setEntry, getEntry]
  | cons p rest ih =>
      obtain ⟨k, e'⟩ := p
      by_cases h : k = t
      · simp [setEntry, getEntry, h]
      · simp [setEntry, getEntry, h, ih]

theorem getEntry_setEntry_ne (r : List (DIToken × RegistryEntry)) (t t' : DIToken)
    (e : RegistryEntry) (h : t' ≠ t) : getEntry (setEntry r t e) t' = getEntry r t' := by
  induction r with
  | nil => simp [setEntry, getEntry, Ne.symm h]
  | cons p rest ih =>
      obtain ⟨k, e'⟩ := p
      by_cases hk : k = t
      · subst hk
        simp [setEntry, getEntry, Ne.symm h]
      · simp [setEntry, getEntry, hk, ih]

theorem getEntry_delEntry_self (r : List (DIToken × RegistryEntry)) (t : DIToken) :
    getEntry (delEntry r t) t = none := by
  induction r with
  | nil => simp [delEntry, getEntry]
  | cons p rest ih =>
      obtain ⟨k, e'⟩ := p
      by_cases hk : k = t
      · simpa [delEntry, getEntry, hk] using ih
      · simpa [delEntry, getEntry, hk] using ih

theorem one_le_length_of_getEntry (r : List (DIToken × RegistryEntry)) (t : DIToken)
    (e : RegistryEntry) (h : getEntry r t = some e) : 1 ≤ r.length := by
  cases r with
  | nil => simp [getEntry] at h
  | cons p rest => simp

theorem two_le_length_of_getEntry (r : List (DIToken × RegistryEntry)) (a b : DIToken)
    (ea eb : RegistryEntry) (hab : a ≠ b)
    (ha : getEntry r a = some ea) (hb : getEntry r b = some eb) : 2 ≤ r.length := by
  induction r with
  | nil => simp [getEntry] at ha
  | cons p rest ih =>
      obtain ⟨k, e'⟩ := p
      by_cases hka : k = a
      · have hb' : getEntry rest b = some eb := by
          simpa [getEntry, hka, hab] using hb
        have := one_le_length_of_getEntry rest b eb hb'
        simp only [List.length_cons]
        omega
      · have ha' : getEntry rest a = some ea := by simpa [getEntry, hka] using ha
        by_cases hkb : k = b
        · have := one_le_length_of_getEntry rest a ea ha'
          simp only [List.length_cons]
          omega
        · have hb' : getEntry rest b = some eb := by simpa [getEntry, hkb] using hb
          have := ih ha' hb'
          simp only [List.length_cons]
          omega

theorem three_le_length_of_getEntry (r : List (DIToken × RegistryEntry)) (a b c : DIToken)
    (ea eb ec : RegistryEntry) (hab : a ≠ b) (hac : a ≠ c) (hbc : b ≠ c)
    (ha : getEntry r a = some ea) (hb : getEntry r b = some eb)
    (hc : getEntry r c = some ec) : 3 ≤ r.length := by
  induction r with
  | nil => simp [getEntry] at ha
  | cons p rest ih =>
      obtain ⟨k, e'⟩ := p
      by_cases hka : k = a
      · have hb' : getEntry rest b = some eb := by
          simpa [getEntry, hka, hab] using hb
        have hc' : getEntry rest c = some ec := by
          simpa [getEntry, hka, hac] using hc
        have := two_le_length_of_getEntry rest b c eb ec hbc hb' hc'
        simp only [List.length_cons]
        omega
      · have ha' : getEntry rest a = some ea := by simpa [getEntry, hka] using ha
        by_cases hkb : k = b
        · have hc' : getEntry rest c = some ec := by
            simpa [getEntry, hkb, hbc] using hc
          have := two_le_length_of_getEntry rest a c ea ec hac ha' hc'
          simp only [List.length_cons]
          omega
        · have hb' : getEntry rest b = some eb := by simpa [getEntry, hkb] using hb
          by_cases hkc : k = c
          · have := two_le_length_of_getEntry rest a b ea eb hab ha' hb'
            simp only [List.length_cons]
            omega
          · have hc' : getEntry rest c = some ec := by simpa [getEntry, hkc] using hc
            have := ih ha' hb' hc'
            simp only [List.length_cons]
            omega

/-! ## Claim theorems -/

/-- C5: for every token with no registry entry — never registered, removed by
`unregister`, or after `clear()` — `resolve` fails with a not-found
diagnostic carrying the token, and `has` returns `false`. -/
theorem resolve_unregistered_not_found (s : Container) (t : DIToken) :
    (getEntry s.registry t = none →
        s.resolve t = (.error (.dependencyNotFound t), s) ∧ s.has t = false)
    ∧ ((s.unregister t).resolve t = (.error (.dependencyNotFound t), s.unregister t)
        ∧ (s.unregister t).has t = false)
    ∧ (s.clear.resolve t = (.error (.dependencyNotFound t), s.clear)
        ∧ s.clear.has t = false) := by
  refine ⟨fun h => ⟨?_, ?_⟩, ⟨?_, ?_⟩, ⟨?_, ?_⟩⟩
  · simp [Container.resolve, resolveInternal, h]
  · simp [Container.has, h]
  · simp [Container.resolve, resolveInternal, Container.unregister, getEntry_delEntry_self]
  · simp [Container.has, Container.unregister, getEntry_delEntry_self]
  · simp [Container.resolve, resolveInternal, Container.clear, getEntry]
  · simp [Container.has, Container.clear, getEntry]

/-- Witness for C5: the never-registered token `0` on the empty container. -/
theorem resolve_unregistered_not_found_witness :
    Container.empty.resolve 0 = (.error (.dependencyNotFound 0), Container.empty)
    ∧ Container.empty.has 0 = false :=
  (resolve_unregistered_not_found Container.empty 0).1 rfl

/-- C7: `register` unconditionally replaces any prior entry for the token
with a fresh entry holding no cached value, so the next `resolve` constructs
afresh from the newly stored provider (here: a freshly allocated object
tagged with the pre-registration allocation counter) instead of returning a
previously cached instance. -/
theorem register_replaces_and_discards_cache :
    (∀ (s : Container) (t : DIToken) (pc : ProviderOrClass) (opts : RegisterOptions),
        getEntry (s.register t pc opts).registry t
          = some { provider := normalizeProvider pc opts, value := none })
    ∧ (∀ (s : Container) (t : DIToken) (cr : ClassRef),
        ((s.register t (.cls cr) { singleton := some true, deps := none }).resolve t).1
          = .ok (.obj s.nextId cr.cid [])) := by
  constructor
  · intro s t pc opts
    simp [Container.register, getEntry_setEntry_self]
  · intro s t cr
    simp [Container.register, Container.resolve, resolveInternal, getEntry_setEntry_self,
      normalizeProvider, singletonFlag, cacheDefined, createInstance, resolveDeps]

/-- A provider object with none of the three tag fields — the `{}` object of
the invalid-provider test. -/
def emptyShapeProvider : Provider :=
  { useValue := none, useClass := none, useFactory := none, deps := none, singleton := none }

/-- C8: registering a token with an object that has none of the fields
`useClass` / `useValue` / `useFactory` succeeds (the entry is stored and
`has` reports it), and the failure — an invalid-provider diagnostic carrying
the token — is raised only when the token is resolved. -/
theorem invalid_provider_fails_at_resolve_time (s : Container) (t : DIToken) :
    getEntry (s.register t (.prov emptyShapeProvider) {}).registry t
        = some { provider := emptyShapeProvider, value := none }
    ∧ (s.register t (.prov emptyShapeProvider) {}).has t = true
    ∧ (s.register t (.prov emptyShapeProvider) {}).resolve t
        = (.error (.invalidProvider t), s.register t (.prov emptyShapeProvider) {}) := by
  refine ⟨?_, ?_, ?_⟩ <;>
    simp [Container.register, Container.has, Container.resolve, resolveInternal,
      getEntry_setEntry_self, normalizeProvider, emptyShapeProvider]

/-- C9: when a stored provider carries more than one tag field, `resolve`
dispatches with the fixed priority `useValue`, then `useClass`, then
`useFactory`.  First conjunct: any entry with a `useValue` field resolves to
that value and leaves the container untouched — in particular a provider
also carrying `useClass` never instantiates the class.  Second conjunct: an
entry with both `useClass` and `useFactory` (no `useValue`) constructs the
class instance, for every factory function `f` and with exactly one
allocation — so the factory is never invoked. -/
theorem provider_dispatch_priority :
    (∀ (s : Container) (t : DIToken) (e : RegistryEntry) (v : Value),
        getEntry s.registry t = some e → e.provider.useValue = some v →
        s.resolve t = (.ok v, s))
    ∧ (∀ (s : Container) (t : DIToken) (e : RegistryEntry) (cr : ClassRef) (f : FactoryFun),
        getEntry s.registry t = some e →
        e.provider.useValue = none → e.provider.useClass = some cr →
        e.provider.useFactory = some f → e.provider.deps = some [] → e.value = none →
        (s.resolve t).1 = .ok (.obj s.nextId cr.cid [])
          ∧ ((s.resolve t).2).nextId = s.nextId + 1) := by
  constructor
  · intro s t e v hget hval
    simp [Container.resolve, resolveInternal, hget, hval]
  · intro s t e cr f hget hval hcls hfac hdeps hcache
    cases hsf : singletonFlag e.provider <;>
      simp [Container.resolve, resolveInternal, hget, hval, hcls, hdeps, hcache,
        cacheDefined, createInstance, resolveDeps, hsf]

/-- A provider carrying both a `useValue` and a `useClass` field. -/
def valueAndClassProv : Provider :=
  { useValue := some (.prim 7), useClass := some ⟨99, none, none⟩, useFactory := none,
    deps := none, singleton := none }

/-- A provider carrying both a `useClass` and a `useFactory` field. -/
def classAndFactoryProv : Provider :=
  { useValue := none, useClass := some ⟨5, none, none⟩,
    useFactory := some (fun n => (.prim 1, n + 50)), deps := some [], singleton := some false }

/-- Witness for C9: with both `useValue` and `useClass` present the stored
value wins; with both `useClass` and `useFactory` present the class is
instantiated and the factory (which would advance the allocation counter by
50) never runs. -/
theorem provider_dispatch_priority_witness :
    ((Container.empty.register 0 (.prov valueAndClassProv) {}).resolve 0
        = (.ok (.prim 7), Container.empty.register 0 (.prov valueAndClassProv) {}))
    ∧ (((Container.empty.register 1 (.prov classAndFactoryProv) {}).resolve 1).1
          = .ok (.obj 0 5 [])
        ∧ (((Container.empty.register 1 (.prov classAndFactoryProv) {}).resolve 1).2).nextId
          = 0 + 1) :=
  ⟨provider_dispatch_priority.1 (Container.empty.register 0 (.prov valueAndClassProv) {}) 0
      { provider := valueAndClassProv, value := none } (.prim 7) rfl rfl,
   provider_dispatch_priority.2 (Container.empty.register 1 (.prov classAndFactoryProv) {}) 1
      { provider := classAndFactoryProv, value := none } ⟨5, none, none⟩
      (fun n => (.prim 1, n + 50)) rfl rfl rfl rfl rfl rfl⟩

/-- C6: the dependency token list for a class provider is the provider's own
`deps` when supplied (first conjunct: the class's static properties are
arbitrary and ignored); when the provider has no `deps`, `getDepsFromClass`
falls back to the class's static `deps` property, then to its static
`dependencies` property, then to `[]` (middle conjuncts); the fifth conjunct
shows the static fallback feeding an actual resolution, and the last shows
that with no declared list anywhere the constructor is invoked with zero
arguments. -/
theorem class_deps_fallback_chain :
    (∀ (s : Container) (t : DIToken) (e : RegistryEntry) (cr : ClassRef),
        getEntry s.registry t = some e → e.provider.useValue = none →
        e.provider.useClass = some cr → e.provider.deps = some [] → e.value = none →
        (s.resolve t).1 = .ok (.obj s.nextId cr.cid []))
    ∧ (∀ (cr : ClassRef) (ds : List DIToken),
        cr.staticDeps = some ds → getDepsFromClass cr = ds)
    ∧ (∀ (cr : ClassRef) (ds : List DIToken), cr.staticDeps = none →
        cr.staticDependencies = some ds → getDepsFromClass cr = ds)
    ∧ (∀ cr : ClassRef, cr.staticDeps = none → cr.staticDependencies = none →
        getDepsFromClass cr = [])
    ∧ (∀ (s : Container) (t d : DIToken) (e ed : RegistryEntry) (cid : Nat)
          (ddp : Option (List DIToken)) (v : Value),
        d ≠ t →
        getEntry s.registry t = some e → e.provider.useValue = none →
        e.provider.useClass = some ⟨cid, some [d], ddp⟩ → e.provider.deps = none →
        e.value = none →
        getEntry s.registry d = some ed → ed.provider.useValue = some v →
        (s.resolve t).1 = .ok (.obj s.nextId cid [v]))
    ∧ (∀ (s : Container) (t : DIToken) (e : RegistryEntry) (cid : Nat),
        getEntry s.registry t = some e → e.provider.useValue = none →
        e.provider.useClass = some ⟨cid, none, none⟩ → e.provider.deps = none →
        e.value = none →
        (s.resolve t).1 = .ok (.obj s.nextId cid [])) := by
  refine ⟨?_, ?_, ?_, ?_, ?_, ?_⟩
  · intro s t e cr hget hval hcls hdeps hcache
    cases hsf : singletonFlag e.provider <;>
      simp [Container.resolve, resolveInternal, hget, hval, hcls, hdeps, hcache,
        cacheDefined, createInstance, resolveDeps, hsf]
  · intro cr ds h
    simp [getDepsFromClass, h]
  · intro cr ds h1 h2
    simp [getDepsFromClass, h1, h2]
  · intro cr h1 h2
    simp [getDepsFromClass, h1, h2]
  · intro s t d e ed cid ddp v hdt hget hval hcls hdeps hcache hgetd hvald
    obtain ⟨k, hk⟩ : ∃ k, s.registry.length = k + 2 :=
      ⟨s.registry.length - 2, by
        have := two_le_length_of_getEntry s.registry t d e ed (Ne.symm hdt) hget hgetd
        omega⟩
    cases hsf : singletonFlag e.provider <;>
      simp [Container.resolve, hk, resolveInternal, hget, hval, hcls, hdeps, hcache,
        cacheDefined, createInstance, resolveDeps, hsf, getDepsFromClass, hdt, hgetd, hvald]
  · intro s t e cid hget hval hcls hdeps hcache
    cases hsf : singletonFlag e.provider <;>
      simp [Container.resolve, resolveInternal, hget, hval, hcls, hdeps, hcache,
        cacheDefined, createInstance, resolveDeps, hsf, getDepsFromClass]

/-- A class provider with no `deps` whose class declares static `deps` `[2]`
and static `dependencies` `[9]`. -/
def staticFallbackProv : Provider :=
  { useValue := none, useClass := some ⟨66, some [2], some [9]⟩, useFactory := none,
    deps := none, singleton := none }

/-- A class provider with no `deps` whose class declares no static list. -/
def noDeclaredDepsProv : Provider :=
  { useValue := none, useClass := some ⟨55, none, none⟩, useFactory := none,
    deps := none, singleton := none }

/-- Witness for C6: provider `deps` `[]` wins over declared statics; the
static chains evaluate as claimed; a class with static `deps` `[2]` is
constructed with the resolved value of token `2`; a class with no declared
list anywhere is constructed with zero arguments. -/
theorem class_deps_fallback_chain_witness :
    (((Container.empty.register 0 (.cls ⟨77, some [9], some [8]⟩)
          { singleton := none, deps := some [] }).resolve 0).1 = .ok (.obj 0 77 []))
    ∧ getDepsFromClass ⟨1, some [4], none⟩ = [4]
    ∧ getDepsFromClass ⟨1, none, some [6]⟩ = [6]
    ∧ getDepsFromClass ⟨1, none, none⟩ = []
    ∧ ((((Container.empty.registerValue 2 (.prim 42)).register 1
            (.prov staticFallbackProv) {}).resolve 1).1 = .ok (.obj 0 66 [.prim 42]))
    ∧ (((Container.empty.register 3 (.prov noDeclaredDepsProv) {}).resolve 3).1
        = .ok (.obj 0 55 [])) :=
  ⟨class_deps_fallback_chain.1 _ 0 _ ⟨77, some [9], some [8]⟩ rfl rfl rfl rfl rfl,
   class_deps_fallback_chain.2.1 ⟨1, some [4], none⟩ [4] rfl,
   class_deps_fallback_chain.2.2.1 ⟨1, none, some [6]⟩ [6] rfl rfl,
   class_deps_fallback_chain.2.2.2.1 ⟨1, none, none⟩ rfl rfl,
   class_deps_fallback_chain.2.2.2.2.1 _ 1 2 _ _ 66 (some [9]) (.prim 42) (by decide)
     rfl rfl rfl rfl rfl rfl rfl,
   class_deps_fallback_chain.2.2.2.2.2 _ 3 _ 55 rfl rfl rfl rfl rfl⟩

/-- C1 (amended): `resolveInternal` fails with a circular-dependency
diagnostic carrying the active path followed by the repeated token exactly
when the requested token already occurs in the path (first conjunct); and
for every container in which token `a` is registered (uncached) with a class
provider whose deps list starts with `b` and `b` with a class provider whose
deps list starts with `a`, with `a ≠ b`, `resolve a` fails with a
circular-dependency error whose path is `[a, b, a]` (second conjunct). -/
theorem circular_dependency_path :
    (∀ (fuel : Nat) (c : Container) (t : DIToken) (resolving : List DIToken),
        t ∈ resolving →
        resolveInternal (fuel + 1) c t resolving
          = (.error (.circularDependency (resolving ++ [t])), c))
    ∧ (∀ (s : Container) (a b : DIToken) (ea eb : RegistryEntry) (ca cb : ClassRef)
          (da db : List DIToken),
        a ≠ b →
        getEntry s.registry a = some ea → ea.provider.useValue = none →
        ea.provider.useClass = some ca → ea.provider.deps = some (b :: da) →
        ea.value = none →
        getEntry s.registry b = some eb → eb.provider.useValue = none →
        eb.provider.useClass = some cb → eb.provider.deps = some (a :: db) →
        eb.value = none →
        (s.resolve a).1 = .error (.circularDependency [a, b, a])) := by
  constructor
  · intro fuel c t resolving h
    simp [resolveInternal, h]
  · intro s a b ea eb ca cb da db hab hga hva hca hda hcha hgb hvb hcb hdb hchb
    obtain ⟨k, hk⟩ : ∃ k, s.registry.length = k + 2 :=
      ⟨s.registry.length - 2, by
        have := two_le_length_of_getEntry s.registry a b ea eb hab hga hgb
        omega⟩
    simp [Container.resolve, hk, resolveInternal, hga, hva, hca, hda, hcha,
      hgb, hvb, hcb, hdb, hchb, cacheDefined, createInstance, resolveDeps,
      hab, Ne.symm hab]

/-- Two class registrations whose deps lists both contain the other token,
but where resolution of token `0` runs into the unregistered token `2`
before ever reaching the cycle. -/
def cyclicWithFailingDep : Container :=
  ((Container.empty.register 0 (.cls ⟨10, none, none⟩)
      { singleton := none, deps := some [2, 1] }).register 1
    (.cls ⟨11, none, none⟩) { singleton := none, deps := some [0] })

/-- Counterexample to C1 as stated: token `0` is registered with a class
provider whose deps list `[2, 1]` contains token `1`, and token `1` with a
class provider whose deps list `[0]` contains token `0`, yet `resolve 0`
throws not-found for the unregistered dep `2` — not a circular-dependency
error with path `[0, 1, 0]`. -/
theorem circular_dependency_counterexample :
    ((getEntry cyclicWithFailingDep.registry 0).map (fun e => e.provider.deps)
        = some (some [2, 1]))
    ∧ ((getEntry cyclicWithFailingDep.registry 1).map (fun e => e.provider.deps)
        = some (some [0]))
    ∧ (cyclicWithFailingDep.resolve 0).1 = .error (.dependencyNotFound 2)
    ∧ (cyclicWithFailingDep.resolve 0).1 ≠ .error (.circularDependency [0, 1, 0]) := by
  refine ⟨rfl, rfl, rfl, ?_⟩
  have h : (cyclicWithFailingDep.resolve 0).1 = .error (.dependencyNotFound 2) := rfl
  rw [h]
  simp

/-- The two-token cycle `0 ↦ [1]`, `1 ↦ [0]` of the test suite. -/
def mutualCycle : Container :=
  ((Container.empty.register 0 (.cls ⟨10, none, none⟩)
      { singleton := none, deps := some [1] }).register 1
    (.cls ⟨11, none, none⟩) { singleton := none, deps := some [0] })

/-- Witness for C1 (amended): the path check fires on a concrete path, and
resolving the concrete two-token cycle yields the path `[0, 1, 0]`. -/
theorem circular_dependency_path_witness :
    (resolveInternal 1 Container.empty 0 [0]
        = (.error (.circularDependency [0, 0]), Container.empty))
    ∧ (mutualCycle.resolve 0).1 = .error (.circularDependency [0, 1, 0]) :=
  ⟨circular_dependency_path.1 0 Container.empty 0 [0] (by decide),
   circular_dependency_path.2 mutualCycle 0 1
      { provider := normalizeProvider (.cls ⟨10, none, none⟩)
          { singleton := none, deps := some [1] }, value := none }
      { provider := normalizeProvider (.cls ⟨11, none, none⟩)
          { singleton := none, deps := some [0] }, value := none }
      ⟨10, none, none⟩ ⟨11, none, none⟩ [] [] (by decide)
      rfl rfl rfl rfl rfl rfl rfl rfl rfl rfl⟩

/-- Token `0` is a class with deps `[1, 2]`; token `1` is a fresh singleton
class; token `2` is unregistered. -/
def partialResolveContainer : Container :=
  ((Container.empty.register 0 (.cls ⟨20, none, none⟩)
      { singleton := none, deps := some [1, 2] }).register 1
    (.cls ⟨21, none, none⟩) { singleton := some true, deps := some [] })

/-- C10: a failing `resolve` is not atomic with respect to the registry:
`resolve 0` throws not-found for dep `2`, yet the singleton dep `1` resolved
before the failure was constructed (the allocation counter advanced to 1)
and stays cached — a later `resolve 1` returns that very instance without
constructing anything (the state is unchanged). -/
theorem failed_resolve_keeps_dep_cache :
    (partialResolveContainer.resolve 0).1 = .error (.dependencyNotFound 2)
    ∧ ((partialResolveContainer.resolve 0).2).nextId = 1
    ∧ ((partialResolveContainer.resolve 0).2.resolve 1)
        = (.ok (.obj 0 21 []), (partialResolveContainer.resolve 0).2) :=
  ⟨rfl, rfl, rfl⟩

/-- C2 (amended): two consecutive `resolve` calls with no intervening
registry mutation behave as follows.  Singleton class providers return the
identical instance (first conjunct, for arbitrary dependency lists, given
that both calls succeed).  Singleton factory providers return the identical
instance provided the first computed value is not `undefined` — the cache
test `entry.value !== undefined` cannot see an `undefined` result, so the
factory would run again (second conjunct; the second call even leaves the
state untouched).  A non-singleton class provider allocates a distinct fresh
instance on each call (third conjunct), and a non-singleton factory that
returns a freshly allocated object on each invocation yields distinct
instances (fourth conjunct). -/
theorem singleton_identity_transient_distinct :
    (∀ (s s1 s2 : Container) (t : DIToken) (e : RegistryEntry) (cr : ClassRef) (v1 v2 : Value),
        getEntry s.registry t = some e →
        e.provider.useValue = none → e.provider.useClass = some cr →
        singletonFlag e.provider = true →
        s.resolve t = (.ok v1, s1) → s1.resolve t = (.ok v2, s2) → v1 = v2)
    ∧ (∀ (s : Container) (t : DIToken) (e : RegistryEntry) (f : FactoryFun),
        getEntry s.registry t = some e →
        e.provider.useValue = none → e.provider.useClass = none →
        e.provider.useFactory = some f →
        singletonFlag e.provider = true → e.value = none →
        (f s.nextId).1.isUndef = false →
        (s.resolve t).1 = .ok (f s.nextId).1
          ∧ (s.resolve t).2.resolve t = (.ok (f s.nextId).1, (s.resolve t).2))
    ∧ (∀ (s : Container) (t : DIToken) (e : RegistryEntry) (cr : ClassRef),
        getEntry s.registry t = some e →
        e.provider.useValue = none → e.provider.useClass = some cr →
        e.provider.deps = some [] →
        singletonFlag e.provider = false →
        (s.resolve t).1 = .ok (.obj s.nextId cr.cid [])
          ∧ ((s.resolve t).2.resolve t).1 = .ok (.obj (s.nextId + 1) cr.cid [])
          ∧ (Value.obj s.nextId cr.cid []) ≠ .obj (s.nextId + 1) cr.cid [])
    ∧ (∀ (s : Container) (t : DIToken) (e : RegistryEntry) (f : FactoryFun) (tag : Nat),
        getEntry s.registry t = some e →
        e.provider.useValue = none → e.provider.useClass = none →
        e.provider.useFactory = some f →
        singletonFlag e.provider = false →
        (∀ n, f n = (.obj n tag [], n + 1)) →
        (s.resolve t).1 = .ok (.obj s.nextId tag [])
          ∧ ((s.resolve t).2.resolve t).1 = .ok (.obj (s.nextId + 1) tag [])
          ∧ (Value.obj s.nextId tag []) ≠ .obj (s.nextId + 1) tag []) := by
  refine ⟨?_, ?_, ?_, ?_⟩
  · intro s s1 s2 t e cr v1 v2 hget hval hcls hsf h1 h2
    simp only [Container.resolve, resolveInternal, List.not_mem_nil, if_false, hget, hval,
      hcls, hsf, Bool.true_and, ite_false, List.nil_append] at h1
    cases hcv : cacheDefined e.value
    · rw [hcv] at h1
      simp only [Bool.false_eq_true, if_false] at h1
      rcases hci : createInstance (resolveInternal s.registry.length) s cr
          (e.provider.deps.getD (getDepsFromClass cr)) [t] with ⟨r, c'⟩
      rw [hci] at h1
      cases r with
      | error err => simp at h1
      | ok w =>
          simp at h1
          obtain ⟨hv1, hs1⟩ := h1
          have hinst : w.isUndef = false := by
            unfold createInstance at hci
            rcases hrd : resolveDeps (resolveInternal s.registry.length) s
                (e.provider.deps.getD (getDepsFromClass cr)) [t] with ⟨rr, cc⟩
            rw [hrd] at hci
            cases rr with
            | error err => simp at hci
            | ok vs =>
                have hh : Value.obj cc.nextId cr.cid vs = w := by
                  have h := congrArg Prod.fst hci
                  simpa using h
                rw [← hh]
                rfl
          subst hs1
          simp only [Container.resolve, resolveInternal, List.not_mem_nil, if_false,
            getEntry_setEntry_self, hval, hcls, hsf, Bool.true_and, cacheDefined, hinst,
            Bool.not_false, Option.getD_some] at h2
          simp at h2
          rw [← hv1, ← h2.1]
    · rw [hcv] at h1
      simp at h1
      obtain ⟨hv1, hs1⟩ := h1
      subst hs1
      simp only [Container.resolve, resolveInternal, List.not_mem_nil, if_false, hget, hval,
        hcls, hsf, Bool.true_and, hcv] at h2
      simp at h2
      rw [← hv1, ← h2.1]
  · intro s t e f hget hval hcls hfac hsf hcache hundef
    have hfull : s.resolve t = (.ok (f s.nextId).1,
        { registry := setEntry s.registry t
            { provider := e.provider, value := some (f s.nextId).1 },
          nextId := (f s.nextId).2 }) := by
      simp [Container.resolve, resolveInternal, hget, hval, hcls, hfac, hsf, hcache,
        cacheDefined]
    rw [hfull]
    refine ⟨rfl, ?_⟩
    simp [Container.resolve, resolveInternal, getEntry_setEntry_self, hval, hcls, hfac, hsf,
      cacheDefined, hundef]
  · intro s t e cr hget hval hcls hdeps hsf
    have hfull : s.resolve t = (.ok (.obj s.nextId cr.cid []),
        { registry := s.registry, nextId := s.nextId + 1 }) := by
      simp [Container.resolve, resolveInternal, hget, hval, hcls, hdeps, hsf,
        createInstance, resolveDeps]
    rw [hfull]
    refine ⟨rfl, ?_, ?_⟩
    · simp [Container.resolve, resolveInternal, hget, hval, hcls, hdeps, hsf,
        createInstance, resolveDeps]
    · simp
  · intro s t e f tag hget hval hcls hfac hsf hf
    have hfull : s.resolve t = (.ok (.obj s.nextId tag []),
        { registry := s.registry, nextId := s.nextId + 1 }) := by
      simp [Container.resolve, resolveInternal, hget, hval, hcls, hfac, hsf, hf]
    rw [hfull]
    refine ⟨rfl, ?_, ?_⟩
    · simp [Container.resolve, resolveInternal, hget, hval, hcls, hfac, hsf, hf]
    · simp

/-- A factory that allocates on every invocation but returns `undefined` the
first time it is ever called (before any allocation has happened). -/
def undefFirstFactory : FactoryFun :=
  fun n => if n = 0 then (Value.undef, 1) else (.obj n 9 [], n + 1)

/-- The provider stored by registering `undefFirstFactory` as a singleton. -/
def undefFirstProvider : Provider :=
  { useValue := none, useClass := none, useFactory := some undefFirstFactory,
    deps := none, singleton := some true }

/-- A container holding only the singleton registration of
`undefFirstFactory` under token `7`. -/
def undefFirstSingleton : Container :=
  Container.empty.registerFactory 7 undefFirstFactory { singleton := some true, deps := none }

/-- Counterexample to C2 as stated: token `7` is registered with a singleton
factory provider, yet two consecutive `resolve 7` calls return different
values — the first computes `undefined`, which the cache test
`entry.value !== undefined` cannot distinguish from an empty cache, so the
second call re-invokes the factory and gets a fresh object. -/
theorem singleton_identity_counterexample :
    getEntry undefFirstSingleton.registry 7
        = some { provider := undefFirstProvider, value := none }
    ∧ (undefFirstSingleton.resolve 7).1 = .ok Value.undef
    ∧ ((undefFirstSingleton.resolve 7).2.resolve 7).1 = .ok (.obj 1 9 [])
    ∧ (undefFirstSingleton.resolve 7).1 ≠ ((undefFirstSingleton.resolve 7).2.resolve 7).1 := by
  refine ⟨rfl, rfl, rfl, ?_⟩
  have ha : (undefFirstSingleton.resolve 7).1 = .ok Value.undef := rfl
  have hb : ((undefFirstSingleton.resolve 7).2.resolve 7).1 = .ok (.obj 1 9 []) := rfl
  rw [ha, hb]
  simp

/-- Token `5`: a fresh singleton class registration. -/
def singletonClassCont : Container :=
  Container.empty.register 5 (.cls ⟨40, none, none⟩) { singleton := some true, deps := some [] }

/-- Token `6`: a transient (non-singleton) class registration. -/
def transientClassCont : Container :=
  Container.empty.register 6 (.cls ⟨41, none, none⟩) { singleton := none, deps := some [] }

/-- A factory returning a freshly allocated object on each invocation. -/
def freshFactory : FactoryFun := fun n => (.obj n 9 [], n + 1)

/-- Token `7`: `freshFactory` registered as a singleton. -/
def singletonFactoryCont : Container :=
  Container.empty.registerFactory 7 freshFactory { singleton := some true, deps := none }

/-- Token `8`: `freshFactory` registered as a transient. -/
def transientFactoryCont : Container :=
  Container.empty.registerFactory 8 freshFactory { singleton := some false, deps := none }

/-- Witness for C2 (amended), instantiating all four conjuncts on concrete
containers. -/
theorem singleton_identity_transient_distinct_witness :
    (Value.obj 0 40 [] = Value.obj 0 40 [])
    ∧ ((singletonFactoryCont.resolve 7).1 = .ok (.obj 0 9 [])
        ∧ (singletonFactoryCont.resolve 7).2.resolve 7
            = (.ok (.obj 0 9 []), (singletonFactoryCont.resolve 7).2))
    ∧ ((transientClassCont.resolve 6).1 = .ok (.obj 0 41 [])
        ∧ ((transientClassCont.resolve 6).2.resolve 6).1 = .ok (.obj 1 41 [])
        ∧ Value.obj 0 41 [] ≠ Value.obj 1 41 [])
    ∧ ((transientFactoryCont.resolve 8).1 = .ok (.obj 0 9 [])
        ∧ ((transientFactoryCont.resolve 8).2.resolve 8).1 = .ok (.obj 1 9 [])
        ∧ Value.obj 0 9 [] ≠ Value.obj 1 9 []) :=
  ⟨singleton_identity_transient_distinct.1 singletonClassCont
      (singletonClassCont.resolve 5).2 ((singletonClassCont.resolve 5).2.resolve 5).2 5
      _ ⟨40, none, none⟩ (.obj 0 40 []) (.obj 0 40 []) rfl rfl rfl rfl rfl rfl,
   singleton_identity_transient_distinct.2.1 singletonFactoryCont 7
      _ freshFactory rfl rfl rfl rfl rfl rfl rfl,
   singleton_identity_transient_distinct.2.2.1 transientClassCont 6
      _ ⟨41, none, none⟩ rfl rfl rfl rfl rfl,
   singleton_identity_transient_distinct.2.2.2 transientFactoryCont 8
      _ freshFactory 9 rfl rfl rfl rfl rfl (fun _ => rfl)⟩

/-- An entry whose cached slot is only filled for a singleton class/factory
provider. -/
def GoodEntry (e : RegistryEntry) : Prop :=
  e.value ≠ none →
    singletonFlag e.provider = true ∧ e.provider.useValue = none
      ∧ (isClassProvider e.provider = true ∨ isFactoryProvider e.provider = true)

/-- C4's registry invariant: a cached value exists only for singleton
class/factory providers. -/
def CacheOnlySingletons (c : Container) : Prop :=
  ∀ t e, getEntry c.registry t = some e → GoodEntry e

theorem getEntry_setEntry_cases (r : List (DIToken × RegistryEntry)) (t t' : DIToken)
    (e e' : RegistryEntry) (h : getEntry (setEntry r t e) t' = some e') :
    e' = e ∨ getEntry r t' = some e' := by
  induction r with
  | nil =>
      simp only [setEntry, getEntry] at h
      by_cases ht : t = t'
      · simp [ht] at h
        exact Or.inl h.symm
      · simp [ht] at h
  | cons p rest ih =>
      obtain ⟨k, a⟩ := p
      by_cases hk : k = t
      · subst hk
        simp only [setEntry, if_true] at h
        simp only [getEntry] at h
        by_cases ht : k = t'
        · simp [ht] at h
          exact Or.inl h.symm
        · simp only [ht, if_false] at h
          right
          simp [getEntry, ht, h]
      · simp only [setEntry, hk, if_false, getEntry] at h
        by_cases ht : k = t'
        · simp only [ht, if_true] at h
          right
          simp [getEntry, ht, h]
        · simp only [ht, if_false] at h
          rcases ih h with h1 | h1
          · exact Or.inl h1
          · right
            simp [getEntry, ht, h1]

theorem getEntry_delEntry_le (r : List (DIToken × RegistryEntry)) (t t' : DIToken)
    (e' : RegistryEntry) (h : getEntry (delEntry r t) t' = some e') :
    getEntry r t' = some e' := by
  by_cases htt : t' = t
  · subst htt
    rw [getEntry_delEntry_self] at h
    exact absurd h (by simp)
  · induction r with
    | nil => simp [delEntry, getEntry] at h
    | cons p rest ih =>
        obtain ⟨k, a⟩ := p
        by_cases hk : k = t
        · subst hk
          have hd : delEntry ((k, a) :: rest) k = delEntry rest k := by
            simp [delEntry]
          rw [hd] at h
          have hkt' : k ≠ t' := fun hh => htt hh.symm
          simp only [getEntry, hkt', if_false]
          exact ih h
        · have hd : delEntry ((k, a) :: rest) t = (k, a) :: delEntry rest t := by
            simp [delEntry, hk]
          rw [hd] at h
          by_cases ht : k = t'
          · simpa [getEntry, ht] using h
          · simp only [getEntry, ht, if_false] at h
            simpa [getEntry, ht] using ih h

theorem resolveDeps_cacheOnly
    (step : Container → DIToken → List DIToken → Except DIError Value × Container)
    (hstep : ∀ c t rs, CacheOnlySingletons c → CacheOnlySingletons (step c t rs).2) :
    ∀ (ts : List DIToken) (c : Container) (rs : List DIToken),
      CacheOnlySingletons c → CacheOnlySingletons (resolveDeps step c ts rs).2 := by
  intro ts
  induction ts with
  | nil =>
      intro c rs h
      exact h
  | cons t rest ih =>
      intro c rs h
      simp only [resolveDeps]
      split
      · rename_i c1 err c2 heq
        have h1 := hstep c t rs h
        rw [heq] at h1
        exact h1
      · rename_i c1 v c2 heq
        have h1 : CacheOnlySingletons c2 := by
          have hh := hstep c t rs h
          rw [heq] at hh
          exact hh
        split
        · rename_i c3 err c4 heq2
          have h2 := ih c2 rs h1
          rw [heq2] at h2
          exact h2
        · rename_i c3 vs c4 heq2
          have h2 := ih c2 rs h1
          rw [heq2] at h2
          exact h2

theorem createInstance_cacheOnly
    (step : Container → DIToken → List DIToken → Except DIError Value × Container)
    (hstep : ∀ c t rs, CacheOnlySingletons c → CacheOnlySingletons (step c t rs).2)
    (c : Container) (cr : ClassRef) (deps : List DIToken) (rs : List DIToken)
    (h : CacheOnlySingletons c) :
    CacheOnlySingletons (createInstance step c cr deps rs).2 := by
  simp only [createInstance]
  split
  · rename_i c1 err c2 heq
    have hh := resolveDeps_cacheOnly step hstep deps c rs h
    rw [heq] at hh
    exact hh
  · rename_i c1 vs c2 heq
    have hh := resolveDeps_cacheOnly step hstep deps c rs h
    rw [heq] at hh
    exact hh

theorem resolveInternal_cacheOnly :
    ∀ (fuel : Nat) (c : Container) (t : DIToken) (rs : List DIToken),
      CacheOnlySingletons c → CacheOnlySingletons (resolveInternal fuel c t rs).2 := by
  intro fuel
  induction fuel with
  | zero =>
      intro c t rs h
      exact h
  | succ n ih =>
      intro c t rs h
      simp only [resolveInternal]
      split
      · exact h
      · split
        · exact h
        · rename_i e hg
          split
          · exact h
          · rename_i hv
            split
            · rename_i cr hc
              split
              · exact h
              · split
                · rename_i err c1 heq
                  have hh := createInstance_cacheOnly (resolveInternal n) ih c cr
                    (e.provider.deps.getD (getDepsFromClass cr)) (rs ++ [t]) h
                  rw [heq] at hh
                  exact hh
                · rename_i w c1 heq
                  have h1 : CacheOnlySingletons c1 := by
                    have hh := createInstance_cacheOnly (resolveInternal n) ih c cr
                      (e.provider.deps.getD (getDepsFromClass cr)) (rs ++ [t]) h
                    rw [heq] at hh
                    exact hh
                  split
                  · rename_i hsf
                    intro t1 e1 hg1
                    rcases getEntry_setEntry_cases _ _ _ _ _ hg1 with he | he
                    · subst he
                      intro _
                      exact ⟨hsf, hv, Or.inl (by simp [isClassProvider, hc])⟩
                    · exact h1 t1 e1 he
                  · exact h1
            · rename_i hc
              split
              · rename_i f hf
                split
                · exact h
                · split
                  · rename_i hsf
                    intro t1 e1 hg1
                    rcases getEntry_setEntry_cases _ _ _ _ _ hg1 with he | he
                    · subst he
                      intro _
                      exact ⟨hsf, hv, Or.inr (by simp [isFactoryProvider, hf])⟩
                    · exact h t1 e1 he
                  · exact h
              · exact h

/-- C4 (amended): a cached value exists only for singleton class/factory
providers — the invariant `CacheOnlySingletons` holds of the empty container
and is preserved by `register`, `unregister`, `clear` and `resolve` (first
five conjuncts).  A singleton class provider caches the first constructed
instance and reuses it: the second `resolve` returns the cached instance and
leaves the state untouched, so the constructor is not invoked again (sixth
conjunct).  A singleton factory provider does the same provided the first
computed value is not `undefined` (last conjunct) — an `undefined` result is
invisible to the cache test `entry.value !== undefined`, so the factory
would be re-invoked. -/
theorem cache_only_singletons_and_reuse :
    CacheOnlySingletons Container.empty
    ∧ (∀ (s : Container) (t : DIToken) (pc : ProviderOrClass) (o : RegisterOptions),
        CacheOnlySingletons s → CacheOnlySingletons (s.register t pc o))
    ∧ (∀ (s : Container) (t : DIToken),
        CacheOnlySingletons s → CacheOnlySingletons (s.unregister t))
    ∧ (∀ s : Container, CacheOnlySingletons s.clear)
    ∧ (∀ (s : Container) (t : DIToken),
        CacheOnlySingletons s → CacheOnlySingletons ((s.resolve t).2))
    ∧ (∀ (s : Container) (t : DIToken) (e : RegistryEntry) (cr : ClassRef),
        getEntry s.registry t = some e →
        e.provider.useValue = none → e.provider.useClass = some cr →
        e.provider.deps = some [] →
        singletonFlag e.provider = true → e.value = none →
        (s.resolve t).1 = .ok (.obj s.nextId cr.cid [])
          ∧ (s.resolve t).2.resolve t = (.ok (.obj s.nextId cr.cid []), (s.resolve t).2))
    ∧ (∀ (s : Container) (t : DIToken) (e : RegistryEntry) (f : FactoryFun),
        getEntry s.registry t = some e →
        e.provider.useValue = none → e.provider.useClass = none →
        e.provider.useFactory = some f →
        singletonFlag e.provider = true → e.value = none →
        (f s.nextId).1.isUndef = false →
        (s.resolve t).2.resolve t = (.ok (f s.nextId).1, (s.resolve t).2)) := by
  refine ⟨?_, ?_, ?_, ?_, ?_, ?_, ?_⟩
  · intro t e hg
    exact absurd hg (by simp [Container.empty, getEntry])
  · intro s t pc o hs t1 e1 hg1
    simp only [Container.register] at hg1
    rcases getEntry_setEntry_cases _ _ _ _ _ hg1 with he | he
    · subst he
      intro hne
      exact absurd rfl hne
    · exact hs t1 e1 he
  · intro s t hs t1 e1 hg1
    simp only [Container.unregister] at hg1
    exact hs t1 e1 (getEntry_delEntry_le _ _ _ _ hg1)
  · intro s t1 e1 hg1
    exact absurd hg1 (by simp [Container.clear, getEntry])
  · intro s t hs
    exact resolveInternal_cacheOnly (s.registry.length + 1) s t [] hs
  · intro s t e cr hget hval hcls hdeps hsf hcache
    have hfull : s.resolve t = (.ok (.obj s.nextId cr.cid []),
        { registry := setEntry s.registry t
            { provider := e.provider, value := some (.obj s.nextId cr.cid []) },
          nextId := s.nextId + 1 }) := by
      simp [Container.resolve, resolveInternal, hget, hval, hcls, hdeps, hsf, hcache,
        cacheDefined, createInstance, resolveDeps]
    rw [hfull]
    refine ⟨rfl, ?_⟩
    simp [Container.resolve, resolveInternal, getEntry_setEntry_self, hval, hcls, hsf,
      cacheDefined, Value.isUndef]
  · intro s t e f hget hval hcls hfac hsf hcache hundef
    have hfull : s.resolve t = (.ok (f s.nextId).1,
        { registry := setEntry s.registry t
            { provider := e.provider, value := some (f s.nextId).1 },
          nextId := (f s.nextId).2 }) := by
      simp [Container.resolve, resolveInternal, hget, hval, hcls, hfac, hsf, hcache,
        cacheDefined]
    rw [hfull]
    simp [Container.resolve, resolveInternal, getEntry_setEntry_self, hval, hcls, hfac, hsf,
      cacheDefined, hundef]

/-- A factory that computes `undefined` on every invocation, advancing the
allocation counter each time it runs (so invocations are observable). -/
def alwaysUndefFactory : FactoryFun := fun n => (Value.undef, n + 1)

/-- `alwaysUndefFactory` registered as a singleton under token `3`. -/
def alwaysUndefSingleton : Container :=
  Container.empty.registerFactory 3 alwaysUndefFactory { singleton := some true, deps := none }

/-- Counterexample to C4 as stated ("regardless of what value was
computed"): a singleton factory whose computed value is `undefined` is
re-invoked by every `resolve` — the allocation counter advances on the
first call and again on the second, although the provider is a singleton
and the registration never changed. -/
theorem cache_reuse_counterexample :
    (alwaysUndefSingleton.resolve 3).1 = .ok Value.undef
    ∧ ((alwaysUndefSingleton.resolve 3).2).nextId = 1
    ∧ (((alwaysUndefSingleton.resolve 3).2.resolve 3).2).nextId = 2 :=
  ⟨rfl, rfl, rfl⟩

/-- Witness for C4 (amended): the invariant holds after the partially
failing resolution of `partialResolveContainer`; the concrete singleton
class and factory registrations of the C2 witness are cached and reused. -/
theorem cache_only_singletons_and_reuse_witness :
    CacheOnlySingletons ((partialResolveContainer.resolve 0).2)
    ∧ ((singletonClassCont.resolve 5).1 = .ok (.obj 0 40 [])
        ∧ (singletonClassCont.resolve 5).2.resolve 5
            = (.ok (.obj 0 40 []), (singletonClassCont.resolve 5).2))
    ∧ (singletonFactoryCont.resolve 7).2.resolve 7
        = (.ok (.obj 0 9 []), (singletonFactoryCont.resolve 7).2) :=
  ⟨cache_only_singletons_and_reuse.2.2.2.2.1 partialResolveContainer 0
      (cache_only_singletons_and_reuse.2.1 _ 1 _ _
        (cache_only_singletons_and_reuse.2.1 _ 0 _ _
          cache_only_singletons_and_reuse.1)),
   cache_only_singletons_and_reuse.2.2.2.2.2.1 singletonClassCont 5 _ ⟨40, none, none⟩
      rfl rfl rfl rfl rfl rfl,
   cache_only_singletons_and_reuse.2.2.2.2.2.2 singletonFactoryCont 7 _ freshFactory
      rfl rfl rfl rfl rfl rfl rfl⟩

/-- C3: resolving class token `tc` registered with deps `[t1, t2]` (both
fresh singleton classes) invokes the constructor with exactly the resolved
dependencies as positional arguments in that order — the result object's
argument list is `[resolve t1, resolve t2]` — and the dependencies are
constructed strictly left to right: the first dependency receives
allocation id `nextId`, the second `nextId + 1`, and the parent
`nextId + 2`.  The cached singleton entries afterwards hold exactly the
instances that were passed as the first and second constructor argument. -/
theorem constructor_args_in_dep_order
    (s : Container) (tc t1 t2 : DIToken) (ec e1 e2 : RegistryEntry) (cc c1 c2 : ClassRef)
    (h1 : tc ≠ t1) (h2 : tc ≠ t2) (h3 : t1 ≠ t2)
    (hgc : getEntry s.registry tc = some ec) (hvc : ec.provider.useValue = none)
    (hcc : ec.provider.useClass = some cc) (hdc : ec.provider.deps = some [t1, t2])
    (hm : ec.value = none)
    (hg1 : getEntry s.registry t1 = some e1) (hv1 : e1.provider.useValue = none)
    (hc1 : e1.provider.useClass = some c1) (hd1 : e1.provider.deps = some [])
    (hs1 : singletonFlag e1.provider = true) (hm1 : e1.value = none)
    (hg2 : getEntry s.registry t2 = some e2) (hv2 : e2.provider.useValue = none)
    (hc2 : e2.provider.useClass = some c2) (hd2 : e2.provider.deps = some [])
    (hs2 : singletonFlag e2.provider = true) (hm2 : e2.value = none) :
    (s.resolve tc).1
        = .ok (.obj (s.nextId + 2) cc.cid
            [.obj s.nextId c1.cid [], .obj (s.nextId + 1) c2.cid []])
    ∧ getEntry ((s.resolve tc).2).registry t1
        = some { provider := e1.provider, value := some (.obj s.nextId c1.cid []) }
    ∧ getEntry ((s.resolve tc).2).registry t2
        = some { provider := e2.provider, value := some (.obj (s.nextId + 1) c2.cid []) } := by
  obtain ⟨k, hk⟩ : ∃ k, s.registry.length = k + 3 :=
    ⟨s.registry.length - 3, by
      have := three_le_length_of_getEntry s.registry tc t1 t2 ec e1 e2 h1 h2 h3 hgc hg1 hg2
      omega⟩
  cases hsfc : singletonFlag ec.provider <;>
    refine ⟨?_, ?_, ?_⟩ <;>
      simp [Container.resolve, hk, resolveInternal, hgc, hvc, hcc, hdc, hm,
        hg1, hv1, hc1, hd1, hs1, hm1, hg2, hv2, hc2, hd2, hs2, hm2, hsfc,
        cacheDefined, createInstance, resolveDeps, h1, h2, h3,
        Ne.symm h1, Ne.symm h2, Ne.symm h3,
        getEntry_setEntry_self, getEntry_setEntry_ne]

/-- Token `0` is a class with deps `[1, 2]`; tokens `1` and `2` are fresh
singleton classes. -/
def orderedDepsContainer : Container :=
  (((Container.empty.register 0 (.cls ⟨30, none, none⟩)
      { singleton := none, deps := some [1, 2] }).register 1
    (.cls ⟨31, none, none⟩) { singleton := some true, deps := some [] }).register 2
    (.cls ⟨32, none, none⟩) { singleton := some true, deps := some [] })

/-- The provider stored for token `1` of `orderedDepsContainer`. -/
def orderedDep1Provider : Provider :=
  normalizeProvider (.cls ⟨31, none, none⟩) { singleton := some true, deps := some [] }

/-- The provider stored for token `2` of `orderedDepsContainer`. -/
def orderedDep2Provider : Provider :=
  normalizeProvider (.cls ⟨32, none, none⟩) { singleton := some true, deps := some [] }

/-- Witness for C3: on the concrete container, dep `1` is constructed first
(id 0), dep `2` second (id 1), the parent last (id 2) with argument list in
declaration order, and the two singleton caches hold those instances. -/
theorem constructor_args_in_dep_order_witness :
    (orderedDepsContainer.resolve 0).1
        = .ok (.obj 2 30 [.obj 0 31 [], .obj 1 32 []])
    ∧ getEntry ((orderedDepsContainer.resolve 0).2).registry 1
        = some { provider := orderedDep1Provider, value := some (.obj 0 31 []) }
    ∧ getEntry ((orderedDepsContainer.resolve 0).2).registry 2
        = some { provider := orderedDep2Provider, value := some (.obj 1 32 []) } :=
  constructor_args_in_dep_order orderedDepsContainer 0 1 2 _ _ _
    ⟨30, none, none⟩ ⟨31, none, none⟩ ⟨32, none, none⟩
    (by decide) (by decide) (by decide)
    rfl rfl rfl rfl rfl rfl rfl rfl rfl rfl rfl rfl rfl rfl rfl rfl rfl
